import Mathlib

/-!
# Verification of the Elektor-bus shutter node (wk-misc)

Shallow embedding of the shutter-node firmware: `shutter.c`
(src/unnamed/part_002) and `hardware.c` (src/ebus/hardware.c).

Machine integers are modelled as `Nat` with explicit `% 2^w` where the C
code can overflow; bytes taken from a received message carry their range
as hypotheses where needed.  Hardware port bits (`MOTOR_on`, `MOTOR_down`)
are modelled as `Bool` fields; a written LED bit carries no logic and is
dropped.  The protocol headers `ebus.h`, `proto-busctl.h` and
`proto-h61.h` are not part of the sources; the constants they define are
modelled from the spec, each marked `Modelled from the spec:` below.
-/

namespace Shutter

/-! ## Protocol constants -/

/-- Modelled from the spec: protocol id of bus-control messages
(`PROTOCOL_EBUS_BUSCTL`, from the missing `ebus.h`).  Only distinctness
from the other protocol ids matters. -/
def PROTOCOL_EBUS_BUSCTL : Nat := 0x81

/-- Modelled from the spec: protocol id of the device (H61) messages
(`PROTOCOL_EBUS_H61`, from the missing `ebus.h`). -/
def PROTOCOL_EBUS_H61 : Nat := 0x86

/-- Modelled from the spec: protocol id of debug messages
(`PROTOCOL_EBUS_DBGMSG`, from the missing `ebus.h`). -/
def PROTOCOL_EBUS_DBGMSG : Nat := 0x85

/-- Modelled from the spec: the response-marker bit in the command byte
(`P_BUSCTL_RESPMASK` from the missing `proto-busctl.h`), taken as the top
bit of the byte. -/
def P_BUSCTL_RESPMASK : Nat := 0x80

/-- Modelled from the spec: the response-marker bit of the H61 protocol
(`P_H61_RESPMASK` from the missing `proto-h61.h`), taken as the top bit. -/
def P_H61_RESPMASK : Nat := 0x80

/-- Modelled from the spec: bus-control command codes (missing
`proto-busctl.h`).  Distinct values below the response-marker bit. -/
def P_BUSCTL_TIME : Nat := 0x01

/-- Modelled from the spec: query-time command code. -/
def P_BUSCTL_QRY_TIME : Nat := 0x02

/-- Modelled from the spec: query-version command code. -/
def P_BUSCTL_QRY_VERSION : Nat := 0x03

/-- Modelled from the spec: set-debug-flags command code. -/
def P_BUSCTL_SET_DEBUG : Nat := 0x05

/-- Modelled from the spec: query-debug-flags command code. -/
def P_BUSCTL_QRY_DEBUG : Nat := 0x06

/-- Modelled from the spec: H61 command group for the shutter (missing
`proto-h61.h`). -/
def P_H61_SHUTTER : Nat := 0x10

/-- Modelled from the spec: H61 command group for the sensor. -/
def P_H61_SENSOR : Nat := 0x20

/-- Modelled from the spec: shutter sub-commands (missing `proto-h61.h`). -/
def P_H61_SHUTTER_QUERY : Nat := 0x01

/-- Modelled from the spec: drive-shutter sub-command. -/
def P_H61_SHUTTER_DRIVE : Nat := 0x02

/-- Modelled from the spec: query-timings sub-command. -/
def P_H61_SHUTTER_QRY_TIMINGS : Nat := 0x03

/-- Modelled from the spec: update-timings sub-command. -/
def P_H61_SHUTTER_UPD_TIMINGS : Nat := 0x04

/-- Modelled from the spec: query-schedule sub-command. -/
def P_H61_SHUTTER_QRY_SCHEDULE : Nat := 0x05

/-- Modelled from the spec: update-schedule sub-command. -/
def P_H61_SHUTTER_UPD_SCHEDULE : Nat := 0x06

/-- Modelled from the spec: sensor temperature sub-command. -/
def P_H61_SENSOR_TEMPERATURE : Nat := 0x01

/-- Message size in octets (`MSGSIZE`). -/
def MSGSIZE : Nat := 16

/-- Modelled from the spec: number of entries of the persisted schedule
table (`DIM (ee_data.u.shutterctl.schedule)`; the declaring `ebus.h` is
missing).  The update-schedule reset pattern requires `msg[9] == 16` and
the query-schedule reply reports the table size, so the table has 16
entries. -/
def SCHEDULE_SIZE : Nat := 16

/-- `SCHEDULE_ACTION_NOP` (shutter.c). -/
def SCHEDULE_ACTION_NOP : Nat := 0

/-- `SCHEDULE_ACTION_UP` (shutter.c): minute + 10s := pull up. -/
def SCHEDULE_ACTION_UP : Nat := 1

/-- `SCHEDULE_ACTION_DOWN` (shutter.c): minute + 50s := pull down. -/
def SCHEDULE_ACTION_DOWN : Nat := 5

/-- Modelled from the spec: `MILLISEC (ms)` converts milliseconds to
10-ms system ticks (the macro lives in the missing `hardware.h`; the
ticker interrupt calls `ticker_bottom` every 10 ms and decrements the
delay counters once per tick). -/
def MILLISEC (ms : Nat) : Nat := ms / 10

/-! ## Motor state machine (shutter.c) -/

/-- `enum action_values` (shutter.c). -/
inductive ActionV where
  | action_none
  | action_up
  | action_down
  | action_up_key
  | action_down_key
deriving DecidableEq, Repr

/-- `enum motor_state_values` (shutter.c). -/
inductive MotorSt where
  | off | pre_off | pre_off2 | pre_off3
  | pre_up | pre_up2 | up | up_ready
  | pre_down | pre_down2 | down | down_ready
deriving DecidableEq, Repr

/-- The state owned by the motor state machine: `motor_state`,
`last_action` (static of `trigger_action`), the two output port bits
`MOTOR_on`/`MOTOR_down`, the `shutter_state` status byte, and the
`motor_action_delay` tick counter. -/
structure MotorCfg where
  motor_state : MotorSt
  last_action : ActionV
  motor_on : Bool
  motor_down : Bool
  shutter_state : Nat
  motor_action_delay : Nat
deriving DecidableEq, Repr

/-- Startup motor state: `main` clears both motor port bits, the statics
start at 0 / `action_none` / `motor_state_off`. -/
def initial_motor : MotorCfg :=
  { motor_state := .off, last_action := .action_none,
    motor_on := false, motor_down := false,
    shutter_state := 0, motor_action_delay := 0 }

/-- The `goto again` re-dispatch of `trigger_action`: a key action is
resolved against `last_action` (toggle semantics), the direct actions
stand. -/
def resolve_action (last : ActionV) : ActionV → ActionV
  | .action_up_key => if last = .action_up then .action_none else .action_up
  | .action_down_key => if last = .action_down then .action_none else .action_down
  | a => a

/-- `trigger_action` (shutter.c): set `motor_state` for the resolved
action, remember it in `last_action` and force a motor event by setting
`motor_action_delay = 1`. -/
def trigger_action (c : MotorCfg) (action : ActionV) : MotorCfg :=
  match resolve_action c.last_action action with
  | .action_none =>
      { c with motor_state := .pre_off, last_action := .action_none,
               motor_action_delay := 1 }
  | .action_up =>
      { c with motor_state := .pre_up, last_action := .action_up,
               motor_action_delay := 1 }
  | .action_down =>
      { c with motor_state := .pre_down, last_action := .action_down,
               motor_action_delay := 1 }
  | _ => c  -- `default: return` — unreachable after resolution

/-- One iteration of the `do … while` switch of `motor_action`
(shutter.c): the state transition, its port writes and the `newdelay` it
computes (stored into `motor_action_delay`).  A resulting delay of `0`
means the C loop would go on to the next iteration (unless the state is
`off`). -/
def mstep (c : MotorCfg) : MotorCfg :=
  match c.motor_state with
  | .off => { c with motor_action_delay := 0 }
  | .pre_off =>
      { c with motor_on := false, motor_action_delay := MILLISEC 200,
               motor_state := .pre_off2 }
  | .pre_off2 =>
      { c with motor_down := false, motor_action_delay := MILLISEC 200,
               motor_state := .pre_off3 }
  | .pre_off3 =>
      { c with shutter_state := c.shutter_state.land 0b00111111,
               motor_action_delay := 0, motor_state := .off }
  | .pre_up =>
      { c with motor_on := false, motor_action_delay := MILLISEC 200,
               motor_state := .pre_up2 }
  | .pre_up2 =>
      { c with motor_down := false, motor_action_delay := MILLISEC 200,
               motor_state := .up }
  | .up =>
      { c with motor_on := true, shutter_state := 0b11000000,
               motor_action_delay := MILLISEC 25000,
               motor_state := .up_ready }
  | .up_ready =>
      { c with shutter_state := 0b00100000, motor_action_delay := 0,
               motor_state := .pre_off }
  | .pre_down =>
      { c with motor_on := false, motor_action_delay := MILLISEC 200,
               motor_state := .pre_down2 }
  | .pre_down2 =>
      { c with motor_down := true, motor_action_delay := MILLISEC 200,
               motor_state := .down }
  | .down =>
      { c with motor_on := true, shutter_state := 0b10000000,
               motor_action_delay := MILLISEC 25000,
               motor_state := .down_ready }
  | .down_ready =>
      { c with shutter_state := 0b00101111, motor_action_delay := 0,
               motor_state := .pre_off }

/-- The `do … while (!newdelay && motor_state != motor_state_off)` loop
of `motor_action`, with fuel (the loop runs at most twice: every chain of
zero-delay transitions reaches a delay or `off` within two steps). -/
def motor_action_loop : Nat → MotorCfg → MotorCfg
  | 0, c => c
  | fuel + 1, c =>
      let c' := mstep c
      if c'.motor_action_delay = 0 ∧ c'.motor_state ≠ .off then
        motor_action_loop fuel c'
      else c'

/-- `motor_action` (shutter.c): run the transition loop; the final
`motor_action_delay` is the function's return value (the delay before the
next call). -/
def motor_action (c : MotorCfg) : MotorCfg := motor_action_loop 12 c

/-- `motor_action` performs one or two of the elementary `mstep`
transitions (the loop re-enters only from the zero-delay states
`off→…`, `pre_off3`, `up_ready`, `down_ready`). -/
theorem motor_action_eq_mstep (c : MotorCfg) :
    motor_action c = mstep c ∨ motor_action c = mstep (mstep c) := by
  cases h : c.motor_state <;>
    simp [motor_action, motor_action_loop, mstep, h, MILLISEC]

/-- Events seen by the motor subsystem: a `trigger_action` call (from a
key, the schedule or a bus command) or one transition step of
`motor_action`. -/
inductive MEvent where
  | trig (a : ActionV)
  | step
deriving DecidableEq, Repr

/-- Apply one motor event. -/
def apply_event (c : MotorCfg) : MEvent → MotorCfg
  | .trig a => trigger_action c a
  | .step => mstep c

/-- Run a sequence of motor events. -/
def run_motor (c : MotorCfg) (es : List MEvent) : MotorCfg :=
  es.foldl apply_event c

/-- Motor configurations reachable from startup by any interleaving of
`trigger_action` calls and `motor_action` transition steps.  This is a
superset of the real executions (where the steps of one `motor_action`
call are not interrupted by triggers), so invariants proved over it hold
for the firmware. -/
inductive Reach : MotorCfg → Prop where
  | init : Reach initial_motor
  | trigger (a : ActionV) {c : MotorCfg} : Reach c → Reach (trigger_action c a)
  | step {c : MotorCfg} : Reach c → Reach (mstep c)

/-- `trigger_action` always moves the state machine to the head of one of
the three `pre_*` sequences. -/
theorem trigger_action_motor_state (c : MotorCfg) (a : ActionV) :
    (trigger_action c a).motor_state = .pre_off ∨
    (trigger_action c a).motor_state = .pre_up ∨
    (trigger_action c a).motor_state = .pre_down := by
  cases a <;> cases hl : c.last_action <;>
    simp [trigger_action, resolve_action, hl]

/-- `trigger_action` never writes the motor ports. -/
theorem trigger_action_ports (c : MotorCfg) (a : ActionV) :
    (trigger_action c a).motor_on = c.motor_on ∧
    (trigger_action c a).motor_down = c.motor_down := by
  cases a <;> cases hl : c.last_action <;>
    simp [trigger_action, resolve_action, hl]

/-- The interlock invariant: whenever the motor power output is on, the
state machine is in one of the states where the next transition cannot be
a direction-relay write (the relay is written only in `pre_off2`,
`pre_up2` and `pre_down2`, and those states are entered with the power
already off). -/
def MotorInv (c : MotorCfg) : Prop :=
  c.motor_on = true →
    c.motor_state = .pre_off ∨ c.motor_state = .pre_up ∨
    c.motor_state = .pre_down ∨ c.motor_state = .up_ready ∨
    c.motor_state = .down_ready

theorem reach_motorInv {c : MotorCfg} (h : Reach c) : MotorInv c := by
  induction h with
  | init => intro hon; simp [initial_motor] at hon
  | @trigger a c' _ ih =>
      intro _
      rcases trigger_action_motor_state c' a with h | h | h <;> simp [h]
  | @step c' _ ih =>
      intro hon
      cases hs : c'.motor_state <;> simp [mstep, hs] at hon ⊢ <;>
        rcases ih hon with h | h | h | h | h <;> simp [hs] at h

/-- `mstep` reaches the given state only from its unique producer state. -/
theorem mstep_state_src {d : MotorCfg} :
    ((mstep d).motor_state = .up → d.motor_state = .pre_up2) ∧
    ((mstep d).motor_state = .down → d.motor_state = .pre_down2) ∧
    ((mstep d).motor_state = .pre_up2 → d.motor_state = .pre_up) ∧
    ((mstep d).motor_state = .pre_down2 → d.motor_state = .pre_down) := by
  cases hs : d.motor_state <;> simp [mstep, hs]

theorem run_motor_append (c : MotorCfg) (l : List MEvent) (e : MEvent) :
    run_motor c (l ++ [e]) = apply_event (run_motor c l) e := by
  simp [run_motor]

/-- A transition step switches the motor power on only in the `up` and
`down` states. -/
theorem mstep_on_src {d : MotorCfg} (hd : d.motor_on = false)
    (h : (mstep d).motor_on = true) :
    d.motor_state = .up ∨ d.motor_state = .down := by
  cases hs : d.motor_state
  case up => exact Or.inl rfl
  case down => exact Or.inr rfl
  all_goals simp [mstep, hs, hd] at h

/-- If a run starting away from `tgt` ends in state `tgt`, and `tgt` is
producible neither by a trigger nor by `mstep` from any state but `src`,
then the run's last event is a transition step taken in state `src`. -/
theorem run_motor_state_src {c : MotorCfg} {l : List MEvent} {tgt src : MotorSt}
    (hprod : ∀ d : MotorCfg, (mstep d).motor_state = tgt → d.motor_state = src)
    (htrig : ∀ (d : MotorCfg) (a : ActionV), (trigger_action d a).motor_state ≠ tgt)
    (hc : c.motor_state ≠ tgt)
    (h : (run_motor c l).motor_state = tgt) :
    ∃ l', l = l' ++ [MEvent.step] ∧ (run_motor c l').motor_state = src := by
  induction l using List.reverseRecOn with
  | nil => exact absurd h hc
  | append_singleton l' e _ =>
      rw [run_motor_append] at h
      cases e with
      | trig a => exact absurd h (htrig _ a)
      | step => exact ⟨l', rfl, hprod _ h⟩

/-- The shape required of the three final transition steps of any path
that powers the motor: from `pre_up` (resp. `pre_down`), a step that
switches the motor power off and arms a 200 ms settle delay, a step that
writes the direction relay and arms another 200 ms settle delay, and only
then the step that switches the motor power on. -/
def SettleSequence (c1 : MotorCfg) : Prop :=
  ((c1.motor_state = .pre_up ∧ (mstep c1).motor_state = .pre_up2 ∧
      (mstep (mstep c1)).motor_state = .up ∧
      (mstep (mstep c1)).motor_down = false) ∨
   (c1.motor_state = .pre_down ∧ (mstep c1).motor_state = .pre_down2 ∧
      (mstep (mstep c1)).motor_state = .down ∧
      (mstep (mstep c1)).motor_down = true)) ∧
  (mstep c1).motor_on = false ∧
  (mstep c1).motor_action_delay = MILLISEC 200 ∧
  (mstep (mstep c1)).motor_on = false ∧
  (mstep (mstep c1)).motor_action_delay = MILLISEC 200 ∧
  (mstep (mstep (mstep c1))).motor_on = true

theorem motor_on_path {c : MotorCfg} (hon0 : c.motor_on = false)
    (hoff : c.motor_state = .off) (es : List MEvent)
    (hrun : (run_motor c es).motor_on = true) :
    ∃ pre suf, es = pre ++ [MEvent.step, MEvent.step, MEvent.step] ++ suf ∧
      SettleSequence (run_motor c pre) := by
  induction es using List.reverseRecOn with
  | nil => rw [show run_motor c [] = c from rfl, hon0] at hrun; exact absurd hrun (by simp)
  | append_singleton l e ih =>
      rw [run_motor_append] at hrun
      by_cases hd : (run_motor c l).motor_on = true
      · obtain ⟨pre, suf, hl, hp⟩ := ih hd
        exact ⟨pre, suf ++ [e], by rw [hl]; simp, hp⟩
      · cases e with
        | trig a =>
            rw [show apply_event (run_motor c l) (MEvent.trig a) =
                  trigger_action (run_motor c l) a from rfl,
                (trigger_action_ports _ a).1] at hrun
            exact absurd hrun hd
        | step =>
            have hdf : (run_motor c l).motor_on = false := by simpa using hd
            have hstate : (run_motor c l).motor_state = .up ∨
                (run_motor c l).motor_state = .down := mstep_on_src hdf hrun
            have htrig_up : ∀ (d : MotorCfg) (a : ActionV),
                (trigger_action d a).motor_state ≠ MotorSt.up := by
              intro d a
              rcases trigger_action_motor_state d a with h | h | h <;> simp [h]
            have htrig_down : ∀ (d : MotorCfg) (a : ActionV),
                (trigger_action d a).motor_state ≠ MotorSt.down := by
              intro d a
              rcases trigger_action_motor_state d a with h | h | h <;> simp [h]
            have htrig_up2 : ∀ (d : MotorCfg) (a : ActionV),
                (trigger_action d a).motor_state ≠ MotorSt.pre_up2 := by
              intro d a
              rcases trigger_action_motor_state d a with h | h | h <;> simp [h]
            have htrig_down2 : ∀ (d : MotorCfg) (a : ActionV),
                (trigger_action d a).motor_state ≠ MotorSt.pre_down2 := by
              intro d a
              rcases trigger_action_motor_state d a with h | h | h <;> simp [h]
            rcases hstate with hup | hdown
            · obtain ⟨l1, hl1, h1⟩ := run_motor_state_src
                (fun d hd => (mstep_state_src (d := d)).1 hd) htrig_up
                (by simp [hoff]) hup
              obtain ⟨l2, hl2, h2⟩ := run_motor_state_src
                (fun d hd => (mstep_state_src (d := d)).2.2.1 hd) htrig_up2
                (by simp [hoff]) h1
              refine ⟨l2, [], by rw [hl1, hl2]; simp, ?_⟩
              have e1 : run_motor c l1 = mstep (run_motor c l2) := by
                rw [hl2, run_motor_append]; rfl
              refine ⟨Or.inl ⟨h2, ?_, ?_, ?_⟩, ?_, ?_, ?_, ?_, ?_⟩ <;>
                simp [← e1, mstep, h2, h1]
            · obtain ⟨l1, hl1, h1⟩ := run_motor_state_src
                (fun d hd => (mstep_state_src (d := d)).2.1 hd) htrig_down
                (by simp [hoff]) hdown
              obtain ⟨l2, hl2, h2⟩ := run_motor_state_src
                (fun d hd => (mstep_state_src (d := d)).2.2.2 hd) htrig_down2
                (by simp [hoff]) h1
              refine ⟨l2, [], by rw [hl1, hl2]; simp, ?_⟩
              have e1 : run_motor c l1 = mstep (run_motor c l2) := by
                rw [hl2, run_motor_append]; rfl
              refine ⟨Or.inr ⟨h2, ?_, ?_, ?_⟩, ?_, ?_, ?_, ?_, ?_⟩ <;>
                simp [← e1, mstep, h2, h1]

/-- C1: Motor interlock.  Over every reachable motor configuration:
(i) a `motor_action` transition step never switches the direction relay
while the motor power output is on — around any step that changes
`MOTOR_down`, `MOTOR_on` is off before and after; (ii) a
`trigger_action` call writes neither motor port; (iii) every event path
that starts in the `off` state and ends with the motor powered on passes
through the two 200 ms settle-delay steps in order: motor power off,
200 ms delay, direction-relay write, 200 ms delay, motor power on. -/
theorem motor_interlock :
    (∀ c : MotorCfg, Reach c → (mstep c).motor_down ≠ c.motor_down →
      c.motor_on = false ∧ (mstep c).motor_on = false) ∧
    (∀ (c : MotorCfg) (a : ActionV),
      (trigger_action c a).motor_on = c.motor_on ∧
      (trigger_action c a).motor_down = c.motor_down) ∧
    (∀ (c : MotorCfg) (es : List MEvent), Reach c → c.motor_state = .off →
      (run_motor c es).motor_on = true →
      ∃ pre suf, es = pre ++ [MEvent.step, MEvent.step, MEvent.step] ++ suf ∧
        SettleSequence (run_motor c pre)) := by
  refine ⟨?_, trigger_action_ports, ?_⟩
  · intro c hc hch
    have inv := reach_motorInv hc
    have honoff : c.motor_state = .pre_off2 ∨ c.motor_state = .pre_up2 ∨
        c.motor_state = .pre_down2 → c.motor_on = false := by
      intro hmem
      cases hv : c.motor_on
      · rfl
      · rcases inv hv with h | h | h | h | h <;>
          rcases hmem with hm | hm | hm <;> rw [hm] at h <;>
          exact absurd h (by decide)
    cases hs : c.motor_state
    case pre_off2 =>
      exact ⟨honoff (Or.inl hs), by simp [mstep, hs, honoff (Or.inl hs)]⟩
    case pre_up2 =>
      exact ⟨honoff (Or.inr (Or.inl hs)),
        by simp [mstep, hs, honoff (Or.inr (Or.inl hs))]⟩
    case pre_down2 =>
      exact ⟨honoff (Or.inr (Or.inr hs)),
        by simp [mstep, hs, honoff (Or.inr (Or.inr hs))]⟩
    all_goals simp [mstep, hs] at hch
  · intro c es hc hsoff hrun
    have hon0 : c.motor_on = false := by
      cases hv : c.motor_on
      · rfl
      · rcases reach_motorInv hc hv with h | h | h | h | h <;>
          rw [hsoff] at h <;> exact absurd h (by decide)
    exact motor_on_path hon0 hsoff es hrun

/-- Witness for `motor_interlock`: the relay-changing step out of
`pre_down2` (reached by `init → trigger(down) → step`) has the power off
on both sides, and the concrete run `trigger(up), step, step, step` from
startup that powers the motor exhibits the settle sequence. -/
theorem motor_interlock_witness :
    ((mstep (mstep (trigger_action initial_motor ActionV.action_down))).motor_down ≠
       (mstep (trigger_action initial_motor ActionV.action_down)).motor_down) ∧
    (mstep (trigger_action initial_motor ActionV.action_down)).motor_on = false ∧
    (mstep (mstep (trigger_action initial_motor ActionV.action_down))).motor_on = false ∧
    initial_motor.motor_state = MotorSt.off ∧
    (run_motor initial_motor
      [MEvent.trig ActionV.action_up, MEvent.step, MEvent.step,
       MEvent.step]).motor_on = true ∧
    ∃ pre suf,
      [MEvent.trig ActionV.action_up, MEvent.step, MEvent.step, MEvent.step] =
        pre ++ [MEvent.step, MEvent.step, MEvent.step] ++ suf ∧
      SettleSequence (run_motor initial_motor pre) := by
  have r1 : Reach (mstep (trigger_action initial_motor ActionV.action_down)) :=
    Reach.step (Reach.trigger ActionV.action_down Reach.init)
  have h1 := motor_interlock.1 _ r1 (by decide)
  exact ⟨by decide, h1.1, h1.2, by decide, by decide,
    motor_interlock.2.2 initial_motor _ Reach.init (by decide) (by decide)⟩

/-- C5: Toggle trigger semantics of `trigger_action`: an
`action_up_key` request resolves to no action (the motor enters the off
sequence `pre_off` and `action_none` is committed) when the last
committed action was `action_up`, and otherwise resolves to an up run
(`pre_up`, committing `action_up`); symmetrically for
`action_down_key`. -/
theorem trigger_toggle (c : MotorCfg) :
    (c.last_action = .action_up →
      trigger_action c .action_up_key =
        { c with motor_state := .pre_off, last_action := .action_none,
                 motor_action_delay := 1 }) ∧
    (c.last_action ≠ .action_up →
      trigger_action c .action_up_key =
        { c with motor_state := .pre_up, last_action := .action_up,
                 motor_action_delay := 1 }) ∧
    (c.last_action = .action_down →
      trigger_action c .action_down_key =
        { c with motor_state := .pre_off, last_action := .action_none,
                 motor_action_delay := 1 }) ∧
    (c.last_action ≠ .action_down →
      trigger_action c .action_down_key =
        { c with motor_state := .pre_down, last_action := .action_down,
                 motor_action_delay := 1 }) := by
  refine ⟨?_, ?_, ?_, ?_⟩ <;> intro h <;>
    simp [trigger_action, resolve_action, h]

/-- Witness for `trigger_toggle`: after a committed up action the up key
resolves to the off sequence; from startup (`action_none`) the up key
resolves to an up run. -/
theorem trigger_toggle_witness :
    (trigger_action initial_motor ActionV.action_up).last_action =
      ActionV.action_up ∧
    trigger_action (trigger_action initial_motor ActionV.action_up)
        ActionV.action_up_key =
      { trigger_action initial_motor ActionV.action_up with
        motor_state := MotorSt.pre_off
        last_action := ActionV.action_none
        motor_action_delay := 1 } ∧
    initial_motor.last_action ≠ ActionV.action_up ∧
    trigger_action initial_motor ActionV.action_up_key =
      { initial_motor with
        motor_state := MotorSt.pre_up
        last_action := ActionV.action_up
        motor_action_delay := 1 } :=
  ⟨by decide, (trigger_toggle _).1 (by decide), by decide,
    (trigger_toggle _).2.1 (by decide)⟩

/-! ## Time base (hardware.c) -/

/-- The counters written by the ticker interrupt (hardware.c):
`two_ms_counter` (a static `uint8_t` of the ISR), `current_clock` and
`current_time` (both `uint16_t`). -/
structure TickState where
  two_ms_counter : Nat
  current_clock : Nat
  current_time : Nat
deriving DecidableEq, Repr

/-- Startup: the statics are zero-initialised. -/
def initial_tick : TickState := ⟨0, 0, 0⟩

/-- `ISR (TIMER2_COMPA_vect)` (hardware.c): every fifth 2 ms interrupt
bumps `current_clock`; when it reaches 1000, ten seconds have passed, so
`current_time` is bumped — wrapping at the weekly boundary
`1440 * 6 * 7` — and the clock restarts at 0.  The trailing
`ticker_bottom` call touches only event flags, modelled with the motor
events above. -/
def tick (s : TickState) : TickState :=
  if (s.two_ms_counter + 1) % 256 ≠ 5 then
    { s with two_ms_counter := (s.two_ms_counter + 1) % 256 }
  else if 1000 ≤ (s.current_clock + 1) % 65536 then
    { two_ms_counter := 0
      current_clock := 0
      current_time := if (s.current_time + 1) % 65536 = 1440 * 6 * 7 then 0
                      else (s.current_time + 1) % 65536 }
  else
    { s with two_ms_counter := 0
             current_clock := (s.current_clock + 1) % 65536 }

theorem tick_preserves {s : TickState} (h1 : s.current_clock < 1000)
    (h2 : s.current_time < 60480) :
    (tick s).current_clock < 1000 ∧ (tick s).current_time < 60480 := by
  unfold tick
  split_ifs <;> simp_all <;> omega

theorem tick_iterate_inv (n : Nat) :
    (tick^[n] initial_tick).current_clock < 1000 ∧
    (tick^[n] initial_tick).current_time < 60480 := by
  induction n with
  | zero => exact ⟨by decide, by decide⟩
  | succ n ih =>
      rw [Function.iterate_succ_apply']
      exact tick_preserves ih.1 ih.2

/-- C8: Clock invariant.  Under repeated ticker-interrupt steps from
startup, `current_clock` stays in `[0, 1000)` and `current_time` in
`[0, 60480)`; on the tick where `current_clock` would reach 1000 it
resets to 0 and `current_time` is incremented, wrapping to 0 at the
weekly boundary `60480 = 1440 * 6 * 7`. -/
theorem clock_invariant :
    (∀ n : Nat, (tick^[n] initial_tick).current_clock < 1000 ∧
      (tick^[n] initial_tick).current_time < 60480) ∧
    (∀ s : TickState, s.two_ms_counter = 4 → s.current_clock = 999 →
      s.current_time < 60480 →
      (tick s).current_clock = 0 ∧
      (tick s).current_time =
        if s.current_time + 1 = 1440 * 6 * 7 then 0
        else s.current_time + 1) := by
  refine ⟨tick_iterate_inv, ?_⟩
  intro s h4 h999 hlt
  have hmod : (s.current_time + 1) % 65536 = s.current_time + 1 :=
    Nat.mod_eq_of_lt (by omega)
  unfold tick
  simp [h4, h999, hmod]

/-- Witness for `clock_invariant`: the tick taken at clock 999 in the
last ten-second slot of the week resets both counters. -/
theorem clock_invariant_witness :
    ((4 : Nat) = 4 ∧ (999 : Nat) = 999 ∧ 60479 < 60480) ∧
    (tick ⟨4, 999, 60479⟩).current_clock = 0 ∧
    (tick ⟨4, 999, 60479⟩).current_time =
      if 60479 + 1 = 1440 * 6 * 7 then 0 else 60479 + 1 := by
  refine ⟨⟨rfl, rfl, by decide⟩, ?_⟩
  exact clock_invariant.2 ⟨4, 999, 60479⟩ rfl rfl (by decide)

/-! ## Key readers (hardware.c) -/

/-- One call of `read_key_s2` (hardware.c) on its static 16-bit sample
shift register: `state <<= 1` (wrapping as `uint16_t`), `state |= key`
with the debounced sample bit, `state |= 0xf800`; the call returns the
new register together with the result of `state == 0xfc00` (only the
transition shall return true). -/
def read_key_s2_step (state : Nat) (sample : Bool) : Nat × Bool :=
  let st := ((state <<< 1) % 65536 ||| (if sample then 1 else 0)) ||| 0xf800
  (st, st == 0xfc00)

/-- `read_key_s3` (hardware.c): same body as `read_key_s2` on its own
static register. -/
def read_key_s3_step (state : Nat) (sample : Bool) : Nat × Bool :=
  let st := ((state <<< 1) % 65536 ||| (if sample then 1 else 0)) ||| 0xf800
  (st, st == 0xfc00)

/-- Iterated key sampling: fold the per-call register update over a
sample sequence. -/
def key_run (state : Nat) (bs : List Bool) : Nat :=
  bs.foldl (fun st b => (read_key_s2_step st b).1) state

theorem key_run_append (st : Nat) (l : List Bool) (b : Bool) :
    key_run st (l ++ [b]) = (read_key_s2_step (key_run st l) b).1 := by
  simp [key_run]

/-- Bits 0–10 of the register after one call: bit 0 is the fresh sample,
bits 1–10 are the previous register shifted up. -/
theorem key_step_testBit (st : Nat) (b : Bool) {j : Nat} (hj : j < 11) :
    ((read_key_s2_step st b).1).testBit j =
      if j = 0 then b else st.testBit (j - 1) := by
  have hmask : ∀ i < 11, Nat.testBit 63488 i = false := by decide
  have hone : ∀ i < 11, Nat.testBit 1 i = decide (i = 0) := by decide
  have h65536 : (65536 : Nat) = 2 ^ 16 := by norm_num
  show ((((st <<< 1) % 65536) ||| (if b then 1 else 0)) ||| 63488).testBit j = _
  rw [Nat.testBit_or, Nat.testBit_or, hmask j hj, h65536,
    Nat.testBit_mod_two_pow, Nat.testBit_shiftLeft]
  cases j with
  | zero =>
      cases b <;> simp [hone 0 (by omega)]
  | succ j' =>
      have hb : (if b then 1 else 0 : Nat).testBit (j' + 1) = false := by
        cases b <;> simp [hone (j' + 1) hj]
      have h1 : j' + 1 < 16 := by omega
      have h2 : j' + 1 ≥ 1 := by omega
      simp [hb, h1, h2]

/-- Bits 0–10 of the register after a run record the most recent samples:
bit `j` is the sample taken `j` calls ago. -/
theorem key_run_testBit (bs : List Bool) (st : Nat) :
    ∀ j, j < 11 → j < bs.length →
      (key_run st bs).testBit j = bs.reverse.getD j false := by
  induction bs using List.reverseRecOn with
  | nil => intro j _ h; simp at h
  | append_singleton l b ih =>
      intro j hj hlen
      rw [key_run_append, key_step_testBit _ _ hj]
      cases j with
      | zero => simp
      | succ j' =>
          have hlen' : j' < l.length := by
            simpa using Nat.lt_of_succ_lt_succ (by simpa using hlen)
          rw [if_neg (by omega)]
          simpa [List.reverse_append] using ih j' (by omega) hlen'

/-- C10: The key readers `read_key_s2` and `read_key_s3` are single-shot
edge detectors: (i) the two readers have the same step function; (ii) a
call returns true exactly when the updated sample register equals the
transition pattern `0xfc00`; (iii) reaching `0xfc00` forces the ten most
recent samples to be ten consecutive identical readings at one key level
(and, when visible, the sample before them at the other level); (iv) for
every possible sample sequence, a call returning true is followed by a
call returning false. -/
theorem key_single_shot :
    read_key_s3_step = read_key_s2_step ∧
    (∀ (st : Nat) (b : Bool),
      (read_key_s2_step st b).2 = true ↔ (read_key_s2_step st b).1 = 0xfc00) ∧
    (∀ (st : Nat) (bs : List Bool), 10 ≤ bs.length →
      key_run st bs = 0xfc00 →
      (∀ j < 10, bs.reverse.getD j false = false) ∧
      (10 < bs.length → bs.reverse.getD 10 false = true)) ∧
    (∀ (st : Nat) (b b' : Bool), (read_key_s2_step st b).2 = true →
      (read_key_s2_step (read_key_s2_step st b).1 b').2 = false) := by
  have hbit : ∀ j < 11, Nat.testBit 0xfc00 j = decide (j = 10) := by decide
  refine ⟨rfl, ?_, ?_, ?_⟩
  · intro st b
    simp [read_key_s2_step]
  · intro st bs hlen hrun
    constructor
    · intro j hj
      rw [← key_run_testBit bs st j (by omega) (by omega), hrun, hbit j (by omega)]
      simp
      omega
    · intro hlen'
      rw [← key_run_testBit bs st 10 (by omega) hlen', hrun, hbit 10 (by omega)]
      decide
  · intro st b b' h
    have h1 : (read_key_s2_step st b).1 = 0xfc00 := by
      simpa [read_key_s2_step] using h
    rw [h1]
    cases b' <;> decide

/-- Witness for `key_single_shot`: a depressed sample followed by ten
released samples from a cleared register yields the pattern `0xfc00`; the
immediately following call cannot return true again. -/
theorem key_single_shot_witness :
    ((read_key_s2_step 0x7e00 false).2 = true ↔
      (read_key_s2_step 0x7e00 false).1 = 0xfc00) ∧
    (10 : Nat) ≤ ([true, false, false, false, false, false, false, false,
      false, false, false] : List Bool).length ∧
    key_run 0 [true, false, false, false, false, false, false, false,
      false, false, false] = 0xfc00 ∧
    (∀ j < 10, ([true, false, false, false, false, false, false, false,
      false, false, false] : List Bool).reverse.getD j false = false) ∧
    (read_key_s2_step 0x7e00 false).2 = true ∧
    (read_key_s2_step (read_key_s2_step 0x7e00 false).1 true).2 = false := by
  refine ⟨key_single_shot.2.1 0x7e00 false, by decide, by decide, ?_, by decide, ?_⟩
  · exact (key_single_shot.2.2.1 0 _ (by decide) (by decide)).1
  · exact key_single_shot.2.2.2 0x7e00 false true (by decide)

/-! ## Node state, schedule engine and message handlers (shutter.c) -/

/-- `msg[i]`: messages are 16-octet buffers modelled as byte lists. -/
def mget (m : List Nat) (i : Nat) : Nat := m.getD i 0

/-- The state of the shutter node visible to the handlers: the RAM copy
of the configuration, the weekly clock (`hardware.c`), the persisted
schedule table, the scheduler's `schedule_last_tfound`, the motor
configuration and the `sensor_ctrl` block. -/
structure Node where
  nodeid_hi : Nat
  nodeid_lo : Nat
  debug_flags : Nat
  reset_flags : Nat
  nodetype : Nat
  time_has_been_set : Bool
  current_time : Nat
  current_clock : Nat
  schedule : List Nat
  schedule_last_tfound : Nat
  motor : MotorCfg
  sensor_active : Nat
  sensor_addr_hi : Nat
  sensor_addr_lo : Nat
  sensor_action_delay : Nat
deriving DecidableEq, Repr

/-- `send_dbgmsg` (shutter.c): when debugging is enabled, emit a
DBGMSG-protocol message carrying the node id and up to 13 octets of the
string. -/
def send_dbgmsg (n : Node) (s : String) : List (List Nat) :=
  if n.debug_flags ≠ 0 then
    [[PROTOCOL_EBUS_DBGMSG, n.nodeid_hi, n.nodeid_lo] ++
      (s.data.map Char.toNat ++ List.replicate 13 0).take 13]
  else []

/-- `set_current_fulltime` (hardware.c): overwrite both clock counters
and record that the time has been set. -/
def set_current_fulltime (n : Node) (tim : Nat) (deci : Nat) : Node :=
  { n with
    current_time := tim
    current_clock := deci * 10
    time_has_been_set := true }

/-- The `for` loop of `process_schedule` (shutter.c): walk the schedule
table, stop at the first empty (zero) entry, and keep the last scanned
entry lying in the window `(tlow, thigh]`. -/
def schedule_scan : List Nat → Nat → Nat → Nat → Nat
  | [], _, _, tfound => tfound
  | t :: ts, tlow, thigh, tfound =>
      if t = 0 then tfound
      else schedule_scan ts tlow thigh
        (if tlow < t ∧ t ≤ thigh then t else tfound)

/-- `schedule_last_tfound` after the reset at the top of
`process_schedule` (weekly wrap or forced scheduling). -/
def schedule_last0 (last time forced_tlow : Nat) : Nat :=
  if last > time ∨ forced_tlow ≠ 0 then 0 else last

/-- The window low bound before the last-fired raise: `forced_tlow` when
nonzero, else the current time rounded down to the minute; minus five
minutes, clamped at zero. -/
def schedule_tlow_base (time forced_tlow : Nat) : Nat :=
  if 5 * 6 ≤ (if forced_tlow ≠ 0 then forced_tlow else time / 6 * 6) then
    (if forced_tlow ≠ 0 then forced_tlow else time / 6 * 6) - 5 * 6
  else 0

/-- The effective window low bound: the base, raised to the remembered
last-fired timestamp when that survives the reset and is larger. -/
def schedule_tlow (last time forced_tlow : Nat) : Nat :=
  if schedule_last0 last time forced_tlow ≠ 0 ∧
     schedule_tlow_base time forced_tlow <
       schedule_last0 last time forced_tlow then
    schedule_last0 last time forced_tlow
  else schedule_tlow_base time forced_tlow

/-- The window high bound: the current time rounded down to the minute
plus 5 (`uint16_t` arithmetic). -/
def schedule_thigh (time : Nat) : Nat := (time / 6 * 6 + 5) % 65536

/-- The entry `process_schedule` selects (its local `tfound`). -/
def schedule_selected (n : Node) (time forced_tlow : Nat) : Nat :=
  schedule_scan n.schedule
    (schedule_tlow n.schedule_last_tfound time forced_tlow)
    (schedule_thigh time) 0

/-- `process_schedule` (shutter.c): no-op without a valid clock;
otherwise reset `schedule_last_tfound` on wrap or forced scheduling,
select the last in-window entry of the zero-terminated table, remember
it, and trigger the action encoded in its low digits. -/
def process_schedule (n : Node) (time forced_tlow : Nat) :
    Node × List (List Nat) :=
  if n.time_has_been_set = false then (n, [])
  else
    let n0 := { n with schedule_last_tfound :=
                  schedule_last0 n.schedule_last_tfound time forced_tlow }
    let tfound := schedule_selected n time forced_tlow
    if tfound ≠ 0 then
      let n1 := { n0 with schedule_last_tfound := tfound }
      if tfound % 6 = SCHEDULE_ACTION_UP then
        ({ n1 with motor := trigger_action n1.motor .action_up },
         send_dbgmsg n1 "sch-act up")
      else if tfound % 6 = SCHEDULE_ACTION_DOWN then
        ({ n1 with motor := trigger_action n1.motor .action_down },
         send_dbgmsg n1 "sch-act dn")
      else (n1, [])
    else (n0, [])

/-- The built-in default schedule written by `init_eeprom` (shutter.c):
for each day, pull-up at 07:30 and pull-down at 18:15, the Sunday
pull-up one hour later; the remaining entries are empty. -/
def default_schedule : List Nat :=
  ((List.range 7).map (fun d =>
    [(7 * 60 + 30) * 6 + SCHEDULE_ACTION_UP + 24 * 60 * 6 * d +
       (if d = 6 then 60 * 6 else 0),
     (18 * 60 + 15) * 6 + SCHEDULE_ACTION_DOWN + 24 * 60 * 6 * d])).join ++
  List.replicate 2 0

/-- `init_eeprom` (shutter.c): install the default schedule when forced
or when the first entry is empty. -/
def init_eeprom (force : Bool) (sched : List Nat) : List Nat :=
  if force ∨ sched.getD 0 0 = 0 then default_schedule else sched

/-- The response header shared by all handler responses:
`msg[1] = msg[3]; msg[2] = msg[4]; msg[3..4] = node id;
msg[5] |= P_BUSCTL_RESPMASK`. -/
def shutter_resp_head (n : Node) (msg : List Nat) : List Nat :=
  [mget msg 0, mget msg 3, mget msg 4, n.nodeid_hi, n.nodeid_lo,
   (mget msg 5) ||| P_BUSCTL_RESPMASK]

/-- The validity checks of the `P_H61_SHUTTER_DRIVE` handler
(shutter.c): index above 1, nonzero reserved bytes 9–15, the reserved
bit 0x10 or the unsupported bit 0x20 of the action byte. -/
def drive_invalid (msg : List Nat) : Prop :=
  1 < mget msg 7 ∨ mget msg 9 ≠ 0 ∨ mget msg 10 ≠ 0 ∨ mget msg 11 ≠ 0 ∨
  mget msg 12 ≠ 0 ∨ mget msg 13 ≠ 0 ∨ mget msg 14 ≠ 0 ∨ mget msg 15 ≠ 0 ∨
  (mget msg 8).land 0x10 ≠ 0 ∨ (mget msg 8).land 0x20 ≠ 0

instance (msg : List Nat) : Decidable (drive_invalid msg) := by
  unfold drive_invalid; infer_instance

/-- `process_shutter_cmd` (shutter.c). -/
def process_shutter_cmd (n : Node) (msg : List Nat) :
    Node × List (List Nat) :=
  if mget msg 6 = P_H61_SHUTTER_QUERY then
    (n, [shutter_resp_head n msg ++
      [mget msg 6, 0, n.motor.shutter_state, 0, 0, 0, 0, 0, 0, 0]])
  else if mget msg 6 = P_H61_SHUTTER_DRIVE then
    if drive_invalid msg then
      (n, [shutter_resp_head n msg ++
        [mget msg 6, 1, n.motor.shutter_state, 0, 0, 0, 0, 0, 0, 0]])
    else if (mget msg 8).land 0xc0 = 0xc0 then
      ({ n with motor := trigger_action n.motor .action_up },
       send_dbgmsg n "bus-act up" ++
         [shutter_resp_head n msg ++
           [mget msg 6, 0, n.motor.shutter_state, 0, 0, 0, 0, 0, 0, 0]])
    else if (mget msg 8).land 0xc0 = 0x80 then
      ({ n with motor := trigger_action n.motor .action_down },
       send_dbgmsg n "bus-act dn" ++
         [shutter_resp_head n msg ++
           [mget msg 6, 0, n.motor.shutter_state, 0, 0, 0, 0, 0, 0, 0]])
    else
      (n, [shutter_resp_head n msg ++
        [mget msg 6, 1, n.motor.shutter_state, 0, 0, 0, 0, 0, 0, 0]])
  else if mget msg 6 = P_H61_SHUTTER_QRY_TIMINGS then (n, [])
  else if mget msg 6 = P_H61_SHUTTER_UPD_TIMINGS then (n, [])
  else if mget msg 6 = P_H61_SHUTTER_QRY_SCHEDULE then
    (n, (List.range SCHEDULE_SIZE).map (fun i =>
      shutter_resp_head n msg ++
        [mget msg 6, 0, 0, SCHEDULE_SIZE, i,
         (n.schedule.getD i 0) / 6 * 6 / 256 % 256,
         (n.schedule.getD i 0) / 6 * 6 % 256,
         (if (n.schedule.getD i 0) % 6 = SCHEDULE_ACTION_UP then 0b11000000
          else if (n.schedule.getD i 0) % 6 = SCHEDULE_ACTION_DOWN then
            0b10000000
          else 0), 0, 0]))
  else if mget msg 6 = P_H61_SHUTTER_UPD_SCHEDULE then
    if mget msg 8 ≠ 0 ∨ mget msg 14 ≠ 0 ∨ mget msg 15 ≠ 0 ∨
       mget msg 9 ≠ 1 ∨ SCHEDULE_SIZE ≤ mget msg 10 then
      if mget msg 7 = 0xf0 ∧ mget msg 9 = 16 ∧ mget msg 10 = 0xf0 ∧
         mget msg 11 = 0xf0 ∧ mget msg 12 = 0xf0 ∧ mget msg 13 = 0xf0 then
        ({ n with schedule := init_eeprom true n.schedule }, [])
      else (n, [])
    else
      let v := (((mget msg 11) <<< 8 ||| mget msg 12) / 6 * 6) +
        (if mget msg 13 = 0b11000000 then SCHEDULE_ACTION_UP
         else if mget msg 13 = 0b10000000 then SCHEDULE_ACTION_DOWN
         else SCHEDULE_ACTION_NOP)
      ({ n with schedule := n.schedule.set (mget msg 10) v }, [])
  else (n, [])

/-- `process_sensor_cmd` (shutter.c): start a conversion recording the
requester, or switch to broadcast on a second distinct requester.  The
one-wire writes are external side effects and are not modelled. -/
def process_sensor_cmd (n : Node) (msg : List Nat) :
    Node × List (List Nat) :=
  if mget msg 6 = P_H61_SENSOR_TEMPERATURE then
    if n.sensor_active ≠ 0 then
      if mget msg 3 ≠ n.sensor_addr_hi ∨ mget msg 4 ≠ n.sensor_addr_lo then
        ({ n with sensor_addr_hi := 0xff, sensor_addr_lo := 0xff }, [])
      else (n, [])
    else
      ({ n with
          sensor_active := 5
          sensor_addr_hi := mget msg 3
          sensor_addr_lo := mget msg 4
          sensor_action_delay := MILLISEC 900 }, [])
  else (n, [])

/-- `process_ebus_h61` (shutter.c): exact-address filter, then dispatch
on the command bits without the response marker; responses are
ignored. -/
def process_ebus_h61 (n : Node) (msg : List Nat) : Node × List (List Nat) :=
  if ¬ (mget msg 1 = n.nodeid_hi ∧ mget msg 2 = n.nodeid_lo) then (n, [])
  else if (mget msg 5).land 0x7f = P_H61_SHUTTER then
    if (mget msg 5).land P_H61_RESPMASK = 0 then process_shutter_cmd n msg
    else (n, [])
  else if (mget msg 5).land 0x7f = P_H61_SENSOR then
    if (mget msg 5).land P_H61_RESPMASK = 0 then process_sensor_cmd n msg
    else (n, [])
  else (n, [])

/-- Modelled from the spec: the 7 octets of `GIT_REVISION` reported by
the version query (the revision string is fixed at build time and not in
the sources). -/
def git_revision_bytes : List Nat := List.replicate 7 0

/-- `process_ebus_busctl` (shutter.c): drop responses and messages with
a bad sender address, accept messages directed to the node or broadcast
(`dest_lo = 0xff` with `dest_hi` the node's or `0xff`), then dispatch on
the command bits without the response marker. -/
def process_ebus_busctl (n : Node) (msg : List Nat) :
    Node × List (List Nat) :=
  if (mget msg 5).land P_BUSCTL_RESPMASK ≠ 0 then (n, [])
  else if mget msg 3 = 0xff ∨ mget msg 4 = 0xff ∨ mget msg 4 = 0 then (n, [])
  else if ¬ (mget msg 1 = n.nodeid_hi ∧ mget msg 2 = n.nodeid_lo) ∧
          ¬ ((mget msg 1 = n.nodeid_hi ∨ mget msg 1 = 0xff) ∧
             mget msg 2 = 0xff) then (n, [])
  else if (mget msg 5).land 0x7f = P_BUSCTL_TIME then
    if n.current_time < (mget msg 7) <<< 8 ||| mget msg 8 then
      process_schedule
        (set_current_fulltime n ((mget msg 7) <<< 8 ||| mget msg 8)
          (if (mget msg 6).land 0x02 ≠ 0 then mget msg 9 else 0))
        ((mget msg 7) <<< 8 ||| mget msg 8) n.current_time
    else
      (set_current_fulltime n ((mget msg 7) <<< 8 ||| mget msg 8)
        (if (mget msg 6).land 0x02 ≠ 0 then mget msg 9 else 0), [])
  else if (mget msg 5).land 0x7f = P_BUSCTL_QRY_TIME then
    (n, [[mget msg 0, mget msg 3, mget msg 4, n.nodeid_hi, n.nodeid_lo,
          (mget msg 5) ||| P_BUSCTL_RESPMASK, 0,
          n.current_time / 256 % 256, n.current_time % 256,
          n.current_clock / 10 % 256, 0, 0, 0, 0, 0, 0]])
  else if (mget msg 5).land 0x7f = P_BUSCTL_QRY_VERSION then
    (n, [[mget msg 0, mget msg 3, mget msg 4, n.nodeid_hi, n.nodeid_lo,
          (mget msg 5) ||| P_BUSCTL_RESPMASK, n.nodetype % 256, 0] ++
         git_revision_bytes ++ [0]])
  else if (mget msg 5).land 0x7f = P_BUSCTL_SET_DEBUG then
    ({ n with debug_flags := mget msg 6 }, [])
  else if (mget msg 5).land 0x7f = P_BUSCTL_QRY_DEBUG then
    (n, [[mget msg 0, mget msg 3, mget msg 4, n.nodeid_hi, n.nodeid_lo,
          (mget msg 5) ||| P_BUSCTL_RESPMASK, n.debug_flags % 256,
          n.reset_flags % 256, 0, 0, 0, 0, 0, 0, 0, 0]])
  else (n, [])

/-! ## Schedule engine: characterization and claims -/

/-- The in-window test of the scan loop, as a Boolean predicate. -/
def in_window (tlow thigh t : Nat) : Bool := decide (tlow < t ∧ t ≤ thigh)

/-- Declarative characterization of the scan loop: it returns the last
entry, in table order, among the entries BEFORE the first zero that lie
in the window — or the accumulator when there is none. -/
theorem schedule_scan_eq (sched : List Nat) (tlow thigh acc : Nat) :
    schedule_scan sched tlow thigh acc =
      ((sched.takeWhile (fun t => t != 0)).filter
        (fun t => in_window tlow thigh t)).getLastD acc := by
  induction sched generalizing acc with
  | nil => rfl
  | cons t ts ih =>
      simp only [schedule_scan]
      by_cases h0 : t = 0
      · simp [h0, List.takeWhile_cons]
      · have hne : (t != 0) = true := by simp [h0]
        rw [if_neg h0, ih, List.takeWhile_cons, hne, if_pos rfl]
        by_cases hw : tlow < t ∧ t ≤ thigh
        · have hwt : in_window tlow thigh t = true := by
            rw [in_window, decide_eq_true_iff]; exact hw
          rw [if_pos hw, List.filter_cons, hwt, if_pos rfl,
            List.getLastD_cons]
        · have hwt : in_window tlow thigh t = false := by
            rw [in_window, decide_eq_false_iff_not]; exact hw
          rw [if_neg hw, List.filter_cons, hwt]
          simp

/-- Any value the scan returns is either zero, the accumulator, or lies
above the window low bound. -/
theorem schedule_scan_pos (sched : List Nat) (tlow thigh : Nat) :
    ∀ acc, acc = 0 ∨ tlow < acc →
      schedule_scan sched tlow thigh acc = 0 ∨
      tlow < schedule_scan sched tlow thigh acc := by
  induction sched with
  | nil => intro acc h; exact h
  | cons t ts ih =>
      intro acc h
      simp only [schedule_scan]
      by_cases h0 : t = 0
      · rw [if_pos h0]; exact h
      · rw [if_neg h0]
        by_cases hw : tlow < t ∧ t ≤ thigh
        · exact ih _ (Or.inr (by rw [if_pos hw]; exact hw.1))
        · exact ih _ (by rw [if_neg hw]; exact h)

/-- Follows the C2 claim's words (not the source): the highest schedule
timestamp over the WHOLE table falling inside the lookback window of
fixed 5-minute width ending at the current time, starting at
`forced_tlow` when that argument is nonzero. -/
def c2_claimed_selection (sched : List Nat) (time forced_tlow : Nat) : Nat :=
  (sched.filter (fun t =>
    decide ((if forced_tlow ≠ 0 then forced_tlow else time - 5 * 6) < t ∧
      t ≤ time))).foldl max 0

/-- The effect of one schedule evaluation with the clock set, in terms
of the selected entry: the motor is triggered according to the selected
entry's action digit, the selection is remembered as last fired, and the
clock fields are untouched. -/
theorem process_schedule_effect (n : Node) (time forced_tlow : Nat)
    (hset : n.time_has_been_set = true) :
    (process_schedule n time forced_tlow).1.motor =
      (if schedule_selected n time forced_tlow ≠ 0 ∧
          schedule_selected n time forced_tlow % 6 = 1 then
         trigger_action n.motor .action_up
       else if schedule_selected n time forced_tlow ≠ 0 ∧
          schedule_selected n time forced_tlow % 6 = 5 then
         trigger_action n.motor .action_down
       else n.motor) ∧
    (process_schedule n time forced_tlow).1.schedule_last_tfound =
      (if schedule_selected n time forced_tlow ≠ 0 then
         schedule_selected n time forced_tlow
       else schedule_last0 n.schedule_last_tfound time forced_tlow) ∧
    (process_schedule n time forced_tlow).1.current_time = n.current_time ∧
    (process_schedule n time forced_tlow).1.current_clock =
      n.current_clock ∧
    (process_schedule n time forced_tlow).1.time_has_been_set = true ∧
    (process_schedule n time forced_tlow).1.schedule = n.schedule := by
  by_cases hsel : schedule_selected n time forced_tlow = 0
  · simp [process_schedule, hset, hsel]
  · by_cases hup : schedule_selected n time forced_tlow % 6 = 1
    · simp [process_schedule, hset, hsel, hup, SCHEDULE_ACTION_UP,
        SCHEDULE_ACTION_DOWN]
    · by_cases hdn : schedule_selected n time forced_tlow % 6 = 5
      · simp [process_schedule, hset, hsel, hup, hdn, SCHEDULE_ACTION_UP,
          SCHEDULE_ACTION_DOWN]
      · simp [process_schedule, hset, hsel, hup, hdn, SCHEDULE_ACTION_UP,
          SCHEDULE_ACTION_DOWN]

/-- C2 (amended): an invocation of `process_schedule` with the clock
never set is a no-op; with the clock set, the table is scanned only up
to the first zero entry, at most one action is triggered, and the action
triggered is that of the last entry in table order among the scanned
entries falling in the lookback window `(tlow, thigh]` — where `thigh`
is the current time rounded down to the minute plus 5 and `tlow` is
(`forced_tlow` if nonzero, else the rounded time) minus five minutes,
clamped at zero and raised to the remembered last-fired timestamp when
that is larger; the selected entry becomes the new last-fired
timestamp. -/
theorem process_schedule_spec (n : Node) (time forced_tlow : Nat) :
    (n.time_has_been_set = false →
      process_schedule n time forced_tlow = (n, [])) ∧
    (n.time_has_been_set = true →
      (process_schedule n time forced_tlow).1.motor =
        (if schedule_selected n time forced_tlow ≠ 0 ∧
            schedule_selected n time forced_tlow % 6 = SCHEDULE_ACTION_UP then
           trigger_action n.motor .action_up
         else if schedule_selected n time forced_tlow ≠ 0 ∧
            schedule_selected n time forced_tlow % 6 = SCHEDULE_ACTION_DOWN then
           trigger_action n.motor .action_down
         else n.motor) ∧
      schedule_selected n time forced_tlow =
        ((n.schedule.takeWhile (fun t => t != 0)).filter
          (fun t => in_window
            (schedule_tlow n.schedule_last_tfound time forced_tlow)
            (schedule_thigh time) t)).getLastD 0 ∧
      (process_schedule n time forced_tlow).1.schedule_last_tfound =
        (if schedule_selected n time forced_tlow ≠ 0 then
           schedule_selected n time forced_tlow
         else schedule_last0 n.schedule_last_tfound time forced_tlow)) := by
  constructor
  · intro h; simp [process_schedule, h]
  · intro hset
    have heff := process_schedule_effect n time forced_tlow hset
    exact ⟨heff.1, schedule_scan_eq _ _ _ _, heff.2.1⟩

/-- A node with the clock set and two entries, pull-up 55 and pull-down
53, both inside the lookback window at time 60. -/
def c2_node : Node :=
  { nodeid_hi := 0x10, nodeid_lo := 0x05, debug_flags := 0, reset_flags := 0,
    nodetype := 1, time_has_been_set := true, current_time := 60,
    current_clock := 0,
    schedule := [55, 53, 0, 0, 0, 0, 0, 0, 0, 0, 0, 0, 0, 0, 0, 0],
    schedule_last_tfound := 0, motor := initial_motor, sensor_active := 0,
    sensor_addr_hi := 0, sensor_addr_lo := 0, sensor_action_delay := 0 }

/-- Counterexample to C2 as stated: at time 60 the highest in-window
timestamp of the whole table is 55, a pull-up entry, yet the invocation
triggers the pull-down of entry 53 — the code keeps the LAST in-window
entry in table order, not the highest one. -/
theorem process_schedule_counterexample :
    c2_claimed_selection c2_node.schedule 60 0 = 55 ∧
    (55 : Nat) % 6 = SCHEDULE_ACTION_UP ∧
    (process_schedule c2_node 60 0).1.motor =
      trigger_action c2_node.motor .action_down ∧
    (process_schedule c2_node 60 0).1.motor ≠
      trigger_action c2_node.motor .action_up := by decide

/-- Witness for `process_schedule_spec`: with the clock unset the
invocation is a no-op; with the clock set and the single entry 61 in
the window, the pull-up is triggered. -/
theorem process_schedule_spec_witness :
    ({ c2_node with time_has_been_set := false } : Node).time_has_been_set =
      false ∧
    process_schedule { c2_node with time_has_been_set := false } 60 0 =
      ({ c2_node with time_has_been_set := false }, []) ∧
    ({ c2_node with schedule := [61] } : Node).time_has_been_set = true ∧
    (process_schedule { c2_node with schedule := [61] } 60 0).1.motor =
      trigger_action initial_motor .action_up := by
  refine ⟨rfl, (process_schedule_spec _ 60 0).1 rfl, rfl, ?_⟩
  have h := ((process_schedule_spec { c2_node with schedule := [61] } 60 0).2
    rfl).1
  rw [h]
  decide

/-- C4: a fired schedule entry is never re-fired.  After an evaluation
selects (and fires) the entry `T = schedule_selected n t1 f1`, it is
remembered in `schedule_last_tfound`; any later evaluation with no
forced low bound and no weekly wrap in between (`T ≤ t2`) selects either
nothing or an entry strictly above `T` — the remembered timestamp keeps
the window's low bound at or above `T` — and when it selects nothing it
triggers no action at all. -/
theorem schedule_no_refire (n : Node) (t1 f1 t2 : Nat)
    (hset : n.time_has_been_set = true)
    (hsel : schedule_selected n t1 f1 ≠ 0)
    (hwrap : schedule_selected n t1 f1 ≤ t2) :
    (process_schedule n t1 f1).1.schedule_last_tfound =
      schedule_selected n t1 f1 ∧
    (schedule_selected (process_schedule n t1 f1).1 t2 0 = 0 ∨
      schedule_selected n t1 f1 <
        schedule_selected (process_schedule n t1 f1).1 t2 0) ∧
    (schedule_selected (process_schedule n t1 f1).1 t2 0 = 0 →
      (process_schedule (process_schedule n t1 f1).1 t2 0).1.motor =
        (process_schedule n t1 f1).1.motor) := by
  have hn1 : (process_schedule n t1 f1).1.schedule_last_tfound =
      schedule_selected n t1 f1 ∧
      (process_schedule n t1 f1).1.schedule = n.schedule ∧
      (process_schedule n t1 f1).1.time_has_been_set = true := by
    by_cases hup : schedule_selected n t1 f1 % 6 = 1
    · simp [process_schedule, hset, hsel, hup, SCHEDULE_ACTION_UP,
        SCHEDULE_ACTION_DOWN]
    · by_cases hdn : schedule_selected n t1 f1 % 6 = 5
      · simp [process_schedule, hset, hsel, hup, hdn, SCHEDULE_ACTION_UP,
          SCHEDULE_ACTION_DOWN]
      · simp [process_schedule, hset, hsel, hup, hdn, SCHEDULE_ACTION_UP,
          SCHEDULE_ACTION_DOWN]
  have htlow : schedule_selected n t1 f1 ≤
      schedule_tlow (schedule_selected n t1 f1) t2 0 := by
    have hlast0 : schedule_last0 (schedule_selected n t1 f1) t2 0 =
        schedule_selected n t1 f1 := by
      unfold schedule_last0
      rw [if_neg]
      rw [not_or]
      exact ⟨by omega, by simp⟩
    unfold schedule_tlow
    rw [hlast0]
    by_cases hb : schedule_tlow_base t2 0 < schedule_selected n t1 f1
    · rw [if_pos ⟨hsel, hb⟩]
    · rw [if_neg (fun h => hb h.2)]
      omega
  have huno : schedule_selected (process_schedule n t1 f1).1 t2 0 =
      schedule_scan n.schedule
        (schedule_tlow ((process_schedule n t1 f1).1.schedule_last_tfound)
          t2 0) (schedule_thigh t2) 0 := by
    unfold schedule_selected
    rw [hn1.2.1]
  rw [hn1.1] at huno
  have hsel2 : schedule_selected (process_schedule n t1 f1).1 t2 0 = 0 ∨
      schedule_selected n t1 f1 <
        schedule_selected (process_schedule n t1 f1).1 t2 0 := by
    rw [huno]
    rcases schedule_scan_pos n.schedule
        (schedule_tlow (schedule_selected n t1 f1) t2 0)
        (schedule_thigh t2) 0 (Or.inl rfl) with h | h
    · exact Or.inl h
    · exact Or.inr (by omega)
  refine ⟨hn1.1, hsel2, ?_⟩
  intro h0
  obtain ⟨n1, hn1eq⟩ : ∃ n1, (process_schedule n t1 f1).1 = n1 := ⟨_, rfl⟩
  rw [hn1eq] at h0 hn1 ⊢
  simp [process_schedule, hn1.2.2, h0]

/-- A node whose single schedule entry 61 fires at time 60. -/
def c4_node : Node :=
  { c2_node with schedule := [61, 0, 0, 0] }

/-- Witness for `schedule_no_refire`: entry 61 fires at time 60 and is
remembered; the evaluation at time 66 selects nothing and leaves the
motor alone. -/
theorem schedule_no_refire_witness :
    c4_node.time_has_been_set = true ∧
    schedule_selected c4_node 60 0 ≠ 0 ∧
    schedule_selected c4_node 60 0 ≤ 66 ∧
    (process_schedule c4_node 60 0).1.schedule_last_tfound =
      schedule_selected c4_node 60 0 ∧
    (schedule_selected (process_schedule c4_node 60 0).1 66 0 = 0 ∨
      schedule_selected c4_node 60 0 <
        schedule_selected (process_schedule c4_node 60 0).1 66 0) ∧
    (schedule_selected (process_schedule c4_node 60 0).1 66 0 = 0 →
      (process_schedule (process_schedule c4_node 60 0).1 66 0).1.motor =
        (process_schedule c4_node 60 0).1.motor) := by
  have h := schedule_no_refire c4_node 60 0 66 rfl (by decide) (by decide)
  exact ⟨rfl, by decide, by decide, h.1, h.2.1, h.2.2⟩

/-! ## Dispatcher addressing (C6) -/

/-- Setting the response marker sets bit 7 of the command byte. -/
theorem respmask_or_testBit (x : Nat) :
    (x ||| P_BUSCTL_RESPMASK).testBit 7 = true := by
  have h : Nat.testBit P_BUSCTL_RESPMASK 7 = true := by decide
  rw [Nat.testBit_or, h, Bool.or_true]

/-- Debug messages carry the DBGMSG protocol id. -/
theorem send_dbgmsg_proto {n : Node} {s : String} {m : List Nat}
    (h : m ∈ send_dbgmsg n s) : mget m 0 = PROTOCOL_EBUS_DBGMSG := by
  unfold send_dbgmsg at h
  by_cases hd : n.debug_flags ≠ 0
  · rw [if_pos hd] at h
    simp at h
    subst h
    rfl
  · rw [if_neg hd] at h
    simp at h

/-- The schedule engine emits only debug messages. -/
theorem process_schedule_sends_dbg {n : Node} {a b : Nat} {m : List Nat}
    (h : m ∈ (process_schedule n a b).2) :
    mget m 0 = PROTOCOL_EBUS_DBGMSG := by
  by_cases hset : n.time_has_been_set = false
  · simp [process_schedule, hset] at h
  · by_cases hsel : schedule_selected n a b = 0
    · simp [process_schedule, hset, hsel] at h
    · by_cases hup : schedule_selected n a b % 6 = 1
      · simp only [process_schedule, hset, hsel, hup, SCHEDULE_ACTION_UP,
          SCHEDULE_ACTION_DOWN, if_neg, if_pos, ite_true, ite_false] at h
        exact send_dbgmsg_proto (by simpa [hset, hsel, hup] using h)
      · by_cases hdn : schedule_selected n a b % 6 = 5
        · simp only [process_schedule, hset, hsel, hup, hdn,
            SCHEDULE_ACTION_UP, SCHEDULE_ACTION_DOWN] at h
          exact send_dbgmsg_proto (by simpa [hset, hsel, hup, hdn] using h)
        · simp [process_schedule, hset, hsel, hup, hdn, SCHEDULE_ACTION_UP,
            SCHEDULE_ACTION_DOWN] at h

/-- Every non-debug message sent by the bus-control handler has the
request's source as destination, the node id as source, and the
response-marker bit set. -/
theorem busctl_response_fields (n : Node) (msg m : List Nat)
    (hm : m ∈ (process_ebus_busctl n msg).2)
    (hnd : mget m 0 ≠ PROTOCOL_EBUS_DBGMSG) :
    mget m 1 = mget msg 3 ∧ mget m 2 = mget msg 4 ∧
    mget m 3 = n.nodeid_hi ∧ mget m 4 = n.nodeid_lo ∧
    (mget m 5).testBit 7 = true := by
  unfold process_ebus_busctl at hm
  split_ifs at hm <;>
    first
      | exact absurd (process_schedule_sends_dbg hm) hnd
      | (simp at hm; subst hm;
         exact ⟨rfl, rfl, rfl, rfl, respmask_or_testBit _⟩)
      | simp at hm

/-- Every non-debug message sent by the device (H61) handler has the
request's source as destination, the node id as source, and the
response-marker bit set. -/
theorem sensor_cmd_sends_nothing (n : Node) (msg : List Nat) :
    (process_sensor_cmd n msg).2 = [] := by
  unfold process_sensor_cmd
  split_ifs <;> rfl

/-- Every non-debug message sent by the shutter-command handler has the
request's source as destination, the node id as source, and the
response-marker bit set. -/
theorem shutter_cmd_response_fields (n : Node) (msg m : List Nat)
    (hm : m ∈ (process_shutter_cmd n msg).2)
    (hnd : mget m 0 ≠ PROTOCOL_EBUS_DBGMSG) :
    mget m 1 = mget msg 3 ∧ mget m 2 = mget msg 4 ∧
    mget m 3 = n.nodeid_hi ∧ mget m 4 = n.nodeid_lo ∧
    (mget m 5).testBit 7 = true := by
  unfold process_shutter_cmd at hm
  by_cases h1 : mget msg 6 = P_H61_SHUTTER_QUERY
  · rw [if_pos h1] at hm
    simp at hm; subst hm
    exact ⟨rfl, rfl, rfl, rfl, respmask_or_testBit _⟩
  rw [if_neg h1] at hm
  by_cases h2 : mget msg 6 = P_H61_SHUTTER_DRIVE
  · rw [if_pos h2] at hm
    by_cases hb : drive_invalid msg
    · rw [if_pos hb] at hm
      simp at hm; subst hm
      exact ⟨rfl, rfl, rfl, rfl, respmask_or_testBit _⟩
    rw [if_neg hb] at hm
    by_cases hu : (mget msg 8).land 0xc0 = 0xc0
    · rw [if_pos hu] at hm
      simp only [List.mem_append, List.mem_singleton] at hm
      rcases hm with hm | hm
      · exact absurd (send_dbgmsg_proto hm) hnd
      · subst hm; exact ⟨rfl, rfl, rfl, rfl, respmask_or_testBit _⟩
    rw [if_neg hu] at hm
    by_cases hd : (mget msg 8).land 0xc0 = 0x80
    · rw [if_pos hd] at hm
      simp only [List.mem_append, List.mem_singleton] at hm
      rcases hm with hm | hm
      · exact absurd (send_dbgmsg_proto hm) hnd
      · subst hm; exact ⟨rfl, rfl, rfl, rfl, respmask_or_testBit _⟩
    rw [if_neg hd] at hm
    simp at hm; subst hm
    exact ⟨rfl, rfl, rfl, rfl, respmask_or_testBit _⟩
  rw [if_neg h2] at hm
  by_cases h3 : mget msg 6 = P_H61_SHUTTER_QRY_TIMINGS
  · rw [if_pos h3] at hm; simp at hm
  rw [if_neg h3] at hm
  by_cases h4 : mget msg 6 = P_H61_SHUTTER_UPD_TIMINGS
  · rw [if_pos h4] at hm; simp at hm
  rw [if_neg h4] at hm
  by_cases h5 : mget msg 6 = P_H61_SHUTTER_QRY_SCHEDULE
  · rw [if_pos h5] at hm
    simp at hm
    obtain ⟨i, -, hfm⟩ := hm
    subst hfm
    exact ⟨rfl, rfl, rfl, rfl, respmask_or_testBit _⟩
  rw [if_neg h5] at hm
  by_cases h6 : mget msg 6 = P_H61_SHUTTER_UPD_SCHEDULE
  · rw [if_pos h6] at hm
    by_cases h7 : mget msg 8 ≠ 0 ∨ mget msg 14 ≠ 0 ∨ mget msg 15 ≠ 0 ∨
        mget msg 9 ≠ 1 ∨ SCHEDULE_SIZE ≤ mget msg 10
    · rw [if_pos h7] at hm
      by_cases h8 : mget msg 7 = 0xf0 ∧ mget msg 9 = 16 ∧
          mget msg 10 = 0xf0 ∧ mget msg 11 = 0xf0 ∧ mget msg 12 = 0xf0 ∧
          mget msg 13 = 0xf0
      · rw [if_pos h8] at hm; simp at hm
      · rw [if_neg h8] at hm; simp at hm
    · rw [if_neg h7] at hm; simp at hm
  rw [if_neg h6] at hm
  simp at hm

/-- Every non-debug message sent by the device (H61) handler has the
request's source as destination, the node id as source, and the
response-marker bit set. -/
theorem h61_response_fields (n : Node) (msg m : List Nat)
    (hm : m ∈ (process_ebus_h61 n msg).2)
    (hnd : mget m 0 ≠ PROTOCOL_EBUS_DBGMSG) :
    mget m 1 = mget msg 3 ∧ mget m 2 = mget msg 4 ∧
    mget m 3 = n.nodeid_hi ∧ mget m 4 = n.nodeid_lo ∧
    (mget m 5).testBit 7 = true := by
  unfold process_ebus_h61 at hm
  split_ifs at hm <;>
    first
      | exact shutter_cmd_response_fields n msg m hm hnd
      | (rw [sensor_cmd_sends_nothing] at hm; simp at hm)
      | simp at hm

/-- C6 (amended): every non-debug message generated by the bus-control
or device handler has its destination equal to the request's source, its
source equal to the local node id, and the response-marker bit (bit 7)
set in the command byte; a request whose destination neither matches the
node id nor has the broadcast form — destination-low `0xff` with
destination-high the node's or `0xff` (which includes the full broadcast
address `0xff:0xff` and the segment broadcast `nodeid_hi:0xff`) —
produces no response and no state change in either handler. -/
theorem response_addressing :
    (∀ (n : Node) (msg m : List Nat),
      m ∈ (process_ebus_busctl n msg).2 ∨ m ∈ (process_ebus_h61 n msg).2 →
      mget m 0 ≠ PROTOCOL_EBUS_DBGMSG →
      mget m 1 = mget msg 3 ∧ mget m 2 = mget msg 4 ∧
      mget m 3 = n.nodeid_hi ∧ mget m 4 = n.nodeid_lo ∧
      (mget m 5).testBit 7 = true) ∧
    (∀ (n : Node) (msg : List Nat),
      ¬ (mget msg 1 = n.nodeid_hi ∧ mget msg 2 = n.nodeid_lo) →
      ¬ ((mget msg 1 = n.nodeid_hi ∨ mget msg 1 = 0xff) ∧
         mget msg 2 = 0xff) →
      process_ebus_busctl n msg = (n, []) ∧
      process_ebus_h61 n msg = (n, [])) := by
  constructor
  · rintro n msg m (hm | hm) hnd
    · exact busctl_response_fields n msg m hm hnd
    · exact h61_response_fields n msg m hm hnd
  · intro n msg h1 h2
    constructor
    · unfold process_ebus_busctl
      by_cases c1 : (mget msg 5).land P_BUSCTL_RESPMASK ≠ 0
      · rw [if_pos c1]
      · rw [if_neg c1]
        by_cases c2 : mget msg 3 = 0xff ∨ mget msg 4 = 0xff ∨ mget msg 4 = 0
        · rw [if_pos c2]
        · rw [if_neg c2, if_pos ⟨h1, h2⟩]
    · unfold process_ebus_h61
      rw [if_pos h1]

/-- A query-time request carrying the segment-broadcast destination
`0x10:0xff` for a node with id `0x10:0x05`. -/
def c6_msg : List Nat :=
  [PROTOCOL_EBUS_BUSCTL, 0x10, 0xff, 0x01, 0x02, P_BUSCTL_QRY_TIME,
   0, 0, 0, 0, 0, 0, 0, 0, 0, 0]

/-- Counterexample to C6 as stated: the destination of `c6_msg` neither
matches the node id `0x10:0x05` nor is the broadcast address
`0xff:0xff`, yet the bus-control handler answers it — the code also
accepts the segment broadcast `nodeid_hi:0xff`. -/
theorem response_addressing_counterexample :
    ¬ (mget c6_msg 1 = c2_node.nodeid_hi ∧
       mget c6_msg 2 = c2_node.nodeid_lo) ∧
    ¬ (mget c6_msg 1 = 0xff ∧ mget c6_msg 2 = 0xff) ∧
    (process_ebus_busctl c2_node c6_msg).2.length = 1 := by decide

/-- A query-time request addressed exactly to the node `0x10:0x05`. -/
def c6_req : List Nat :=
  [PROTOCOL_EBUS_BUSCTL, 0x10, 0x05, 0x01, 0x02, P_BUSCTL_QRY_TIME,
   0, 0, 0, 0, 0, 0, 0, 0, 0, 0]

/-- The response `c6_req` elicits from `c2_node` (time 60, clock 0). -/
def c6_resp : List Nat :=
  [PROTOCOL_EBUS_BUSCTL, 0x01, 0x02, 0x10, 0x05,
   P_BUSCTL_QRY_TIME ||| P_BUSCTL_RESPMASK, 0, 0, 60, 0, 0, 0, 0, 0, 0, 0]

/-- A request whose destination `0x20:0x30` matches nothing. -/
def c6_other : List Nat :=
  [PROTOCOL_EBUS_BUSCTL, 0x20, 0x30, 0x01, 0x02, P_BUSCTL_QRY_TIME,
   0, 0, 0, 0, 0, 0, 0, 0, 0, 0]

/-- Witness for `response_addressing`: the concrete query-time exchange
swaps the addresses and sets the marker bit; the mis-addressed request
is fully ignored by both handlers. -/
theorem response_addressing_witness :
    c6_resp ∈ (process_ebus_busctl c2_node c6_req).2 ∧
    mget c6_resp 0 ≠ PROTOCOL_EBUS_DBGMSG ∧
    (mget c6_resp 1 = mget c6_req 3 ∧ mget c6_resp 2 = mget c6_req 4 ∧
     mget c6_resp 3 = c2_node.nodeid_hi ∧
     mget c6_resp 4 = c2_node.nodeid_lo ∧
     (mget c6_resp 5).testBit 7 = true) ∧
    ¬ (mget c6_other 1 = c2_node.nodeid_hi ∧
       mget c6_other 2 = c2_node.nodeid_lo) ∧
    ¬ ((mget c6_other 1 = c2_node.nodeid_hi ∨ mget c6_other 1 = 0xff) ∧
       mget c6_other 2 = 0xff) ∧
    process_ebus_busctl c2_node c6_other = (c2_node, []) ∧
    process_ebus_h61 c2_node c6_other = (c2_node, []) := by
  have h2 := response_addressing.2 c2_node c6_other (by decide) (by decide)
  refine ⟨by decide, by decide, ?_, by decide, by decide, h2.1, h2.2⟩
  exact response_addressing.1 c2_node c6_req c6_resp (Or.inl (by decide))
    (by decide)

/-! ## Shutter-drive validation (C7) -/

/-- C7: for a drive-shutter command, when the shutter index is above 1,
a reserved byte (offsets 9–15) is nonzero, the reserved bit `0x10` or
the unsupported bit `0x20` of the action byte is set, or the action bits
`0xc0` encode neither up (`0xc0`) nor down (`0x80`), no motor action is
triggered and the response carries error value 1; otherwise the
requested direction is triggered and the response carries error
value 0. -/
theorem shutter_drive_validation (n : Node) (msg : List Nat)
    (hcmd : mget msg 6 = P_H61_SHUTTER_DRIVE) :
    (drive_invalid msg ∨
        ((mget msg 8).land 0xc0 ≠ 0xc0 ∧ (mget msg 8).land 0xc0 ≠ 0x80) →
      process_shutter_cmd n msg =
        (n, [shutter_resp_head n msg ++
          [mget msg 6, 1, n.motor.shutter_state, 0, 0, 0, 0, 0, 0, 0]])) ∧
    (¬ drive_invalid msg → (mget msg 8).land 0xc0 = 0xc0 →
      process_shutter_cmd n msg =
        ({ n with motor := trigger_action n.motor .action_up },
         send_dbgmsg n "bus-act up" ++
           [shutter_resp_head n msg ++
             [mget msg 6, 0, n.motor.shutter_state, 0, 0, 0, 0, 0, 0, 0]])) ∧
    (¬ drive_invalid msg → (mget msg 8).land 0xc0 = 0x80 →
      process_shutter_cmd n msg =
        ({ n with motor := trigger_action n.motor .action_down },
         send_dbgmsg n "bus-act dn" ++
           [shutter_resp_head n msg ++
             [mget msg 6, 0, n.motor.shutter_state, 0, 0, 0, 0, 0, 0, 0]])) := by
  have hq : ¬ mget msg 6 = P_H61_SHUTTER_QUERY := by
    rw [hcmd]; decide
  refine ⟨?_, ?_, ?_⟩
  · rintro (hbad | ⟨hu, hd⟩)
    · unfold process_shutter_cmd
      rw [if_neg hq, if_pos hcmd, if_pos hbad]
    · unfold process_shutter_cmd
      rw [if_neg hq, if_pos hcmd]
      by_cases hbad : drive_invalid msg
      · rw [if_pos hbad]
      · rw [if_neg hbad, if_neg hu, if_neg hd]
  · intro hbad hu
    unfold process_shutter_cmd
    rw [if_neg hq, if_pos hcmd, if_neg hbad, if_pos hu]
  · intro hbad hd
    unfold process_shutter_cmd
    rw [if_neg hq, if_pos hcmd, if_neg hbad]
    have hu : ¬ (mget msg 8).land 0xc0 = 0xc0 := by
      rw [hd]; decide
    rw [if_neg hu, if_pos hd]

/-- A drive command with an out-of-range shutter index 2. -/
def c7_bad : List Nat :=
  [PROTOCOL_EBUS_H61, 0x10, 0x05, 0x01, 0x02, P_H61_SHUTTER,
   P_H61_SHUTTER_DRIVE, 2, 0xc0, 0, 0, 0, 0, 0, 0, 0]

/-- A well-formed drive command requesting direction up. -/
def c7_up : List Nat :=
  [PROTOCOL_EBUS_H61, 0x10, 0x05, 0x01, 0x02, P_H61_SHUTTER,
   P_H61_SHUTTER_DRIVE, 0, 0xc0, 0, 0, 0, 0, 0, 0, 0]

/-- Witness for `shutter_drive_validation`: the out-of-range index is
answered with error 1 and no motor action; the valid up command triggers
the up run and is answered with error 0. -/
theorem shutter_drive_validation_witness :
    mget c7_bad 6 = P_H61_SHUTTER_DRIVE ∧ drive_invalid c7_bad ∧
    process_shutter_cmd c2_node c7_bad =
      (c2_node, [shutter_resp_head c2_node c7_bad ++
        [mget c7_bad 6, 1, c2_node.motor.shutter_state,
         0, 0, 0, 0, 0, 0, 0]]) ∧
    mget c7_up 6 = P_H61_SHUTTER_DRIVE ∧ ¬ drive_invalid c7_up ∧
    (mget c7_up 8).land 0xc0 = 0xc0 ∧
    process_shutter_cmd c2_node c7_up =
      ({ c2_node with motor := trigger_action c2_node.motor .action_up },
       send_dbgmsg c2_node "bus-act up" ++
         [shutter_resp_head c2_node c7_up ++
           [mget c7_up 6, 0, c2_node.motor.shutter_state,
            0, 0, 0, 0, 0, 0, 0]]) := by
  refine ⟨by decide, by decide, ?_, by decide, by decide, by decide, ?_⟩
  · exact (shutter_drive_validation c2_node c7_bad (by decide)).1
      (Or.inl (by decide))
  · exact (shutter_drive_validation c2_node c7_up (by decide)).2.1
      (by decide) (by decide)

/-! ## TIME message handling (C3, C9) -/

/-- C3: a TIME bus-control message accepted by the node (not a response,
good sender, addressed or broadcast) carrying a timestamp strictly newer
than the node's time: the handler equals a clock overwrite followed by a
schedule evaluation with the OLD local time as forced low bound; the
clock is updated and `time_has_been_set` holds afterwards; every
timestamp between the old and the new time lies inside the forced
lookback window; and when the catch-up evaluation selects a pull-up
(resp. pull-down) entry, that action is triggered. -/
theorem time_msg_catchup (n : Node) (msg : List Nat) (val16 deci : Nat)
    (hval : val16 = (mget msg 7) <<< 8 ||| mget msg 8)
    (hdeci : deci = if (mget msg 6).land 0x02 ≠ 0 then mget msg 9 else 0)
    (hresp : (mget msg 5).land P_BUSCTL_RESPMASK = 0)
    (hsender : ¬ (mget msg 3 = 0xff ∨ mget msg 4 = 0xff ∨ mget msg 4 = 0))
    (haddr : (mget msg 1 = n.nodeid_hi ∧ mget msg 2 = n.nodeid_lo) ∨
      ((mget msg 1 = n.nodeid_hi ∨ mget msg 1 = 0xff) ∧ mget msg 2 = 0xff))
    (hcmd : (mget msg 5).land 0x7f = P_BUSCTL_TIME)
    (hnew : n.current_time < val16) :
    process_ebus_busctl n msg =
      process_schedule (set_current_fulltime n val16 deci) val16
        n.current_time ∧
    (process_ebus_busctl n msg).1.current_time = val16 ∧
    (process_ebus_busctl n msg).1.current_clock = deci * 10 ∧
    (process_ebus_busctl n msg).1.time_has_been_set = true ∧
    (0 < n.current_time → val16 < 60480 →
      ∀ e, n.current_time < e → e ≤ val16 →
        schedule_tlow n.schedule_last_tfound val16 n.current_time < e ∧
        e ≤ schedule_thigh val16) ∧
    (schedule_selected (set_current_fulltime n val16 deci) val16
        n.current_time ≠ 0 →
      (schedule_selected (set_current_fulltime n val16 deci) val16
          n.current_time % 6 = 1 →
        (process_ebus_busctl n msg).1.motor =
          trigger_action n.motor .action_up) ∧
      (schedule_selected (set_current_fulltime n val16 deci) val16
          n.current_time % 6 = 5 →
        (process_ebus_busctl n msg).1.motor =
          trigger_action n.motor .action_down)) := by
  subst hval hdeci
  have hstep : process_ebus_busctl n msg =
      process_schedule
        (set_current_fulltime n ((mget msg 7) <<< 8 ||| mget msg 8)
          (if (mget msg 6).land 0x02 ≠ 0 then mget msg 9 else 0))
        ((mget msg 7) <<< 8 ||| mget msg 8) n.current_time := by
    unfold process_ebus_busctl
    rw [if_neg (by simp [hresp]), if_neg hsender,
      if_neg (fun hc => haddr.elim hc.1 hc.2), if_pos hcmd, if_pos hnew]
  have heff := process_schedule_effect
    (set_current_fulltime n ((mget msg 7) <<< 8 ||| mget msg 8)
      (if (mget msg 6).land 0x02 ≠ 0 then mget msg 9 else 0))
    ((mget msg 7) <<< 8 ||| mget msg 8) n.current_time rfl
  rw [hstep]
  refine ⟨rfl, heff.2.2.1, heff.2.2.2.1, heff.2.2.2.2.1, ?_, ?_⟩
  · intro ht0 hv60 e he1 he2
    have hl0 : schedule_last0 n.schedule_last_tfound
        ((mget msg 7) <<< 8 ||| mget msg 8) n.current_time = 0 := by
      unfold schedule_last0
      rw [if_pos (Or.inr (by omega))]
    constructor
    · unfold schedule_tlow
      rw [hl0, if_neg (by simp)]
      unfold schedule_tlow_base
      split_ifs <;> omega
    · unfold schedule_thigh
      rw [Nat.mod_eq_of_lt (by omega)]
      omega
  · intro hsel0
    constructor
    · intro hsel1
      rw [heff.1, if_pos ⟨hsel0, hsel1⟩]
      rfl
    · intro hsel5
      have hne1 : ¬ (schedule_selected
          (set_current_fulltime n ((mget msg 7) <<< 8 ||| mget msg 8)
            (if (mget msg 6).land 0x02 ≠ 0 then mget msg 9 else 0))
          ((mget msg 7) <<< 8 ||| mget msg 8) n.current_time % 6 = 1) := by
        omega
      rw [heff.1, if_neg (fun h => hne1 h.2), if_pos ⟨hsel0, hsel5⟩]
      rfl

/-- C9: every accepted TIME bus-control message overwrites the clock
unconditionally — `set_current_fulltime` runs with the message's
timestamp even when it is older than or equal to the node's current time
(`time_has_been_set` is raised either way); only the catch-up schedule
evaluation is conditional on the timestamp being strictly newer, and
with an older-or-equal timestamp the handler performs the clock
overwrite and nothing else. -/
theorem time_msg_unconditional (n : Node) (msg : List Nat)
    (val16 deci : Nat)
    (hval : val16 = (mget msg 7) <<< 8 ||| mget msg 8)
    (hdeci : deci = if (mget msg 6).land 0x02 ≠ 0 then mget msg 9 else 0)
    (hresp : (mget msg 5).land P_BUSCTL_RESPMASK = 0)
    (hsender : ¬ (mget msg 3 = 0xff ∨ mget msg 4 = 0xff ∨ mget msg 4 = 0))
    (haddr : (mget msg 1 = n.nodeid_hi ∧ mget msg 2 = n.nodeid_lo) ∨
      ((mget msg 1 = n.nodeid_hi ∨ mget msg 1 = 0xff) ∧ mget msg 2 = 0xff))
    (hcmd : (mget msg 5).land 0x7f = P_BUSCTL_TIME) :
    (process_ebus_busctl n msg).1.current_time = val16 ∧
    (process_ebus_busctl n msg).1.current_clock = deci * 10 ∧
    (process_ebus_busctl n msg).1.time_has_been_set = true ∧
    (val16 ≤ n.current_time →
      process_ebus_busctl n msg = (set_current_fulltime n val16 deci, [])) := by
  subst hval hdeci
  by_cases hlt : n.current_time < (mget msg 7) <<< 8 ||| mget msg 8
  · have hstep : process_ebus_busctl n msg =
        process_schedule
          (set_current_fulltime n ((mget msg 7) <<< 8 ||| mget msg 8)
            (if (mget msg 6).land 0x02 ≠ 0 then mget msg 9 else 0))
          ((mget msg 7) <<< 8 ||| mget msg 8) n.current_time := by
      unfold process_ebus_busctl
      rw [if_neg (by simp [hresp]), if_neg hsender,
        if_neg (fun hc => haddr.elim hc.1 hc.2), if_pos hcmd, if_pos hlt]
    have heff := process_schedule_effect
      (set_current_fulltime n ((mget msg 7) <<< 8 ||| mget msg 8)
        (if (mget msg 6).land 0x02 ≠ 0 then mget msg 9 else 0))
      ((mget msg 7) <<< 8 ||| mget msg 8) n.current_time rfl
    rw [hstep]
    exact ⟨heff.2.2.1, heff.2.2.2.1, heff.2.2.2.2.1, fun hle => by omega⟩
  · have hstep : process_ebus_busctl n msg =
        (set_current_fulltime n ((mget msg 7) <<< 8 ||| mget msg 8)
          (if (mget msg 6).land 0x02 ≠ 0 then mget msg 9 else 0), []) := by
      unfold process_ebus_busctl
      rw [if_neg (by simp [hresp]), if_neg hsender,
        if_neg (fun hc => haddr.elim hc.1 hc.2), if_pos hcmd, if_neg hlt]
    rw [hstep]
    exact ⟨rfl, rfl, rfl, fun _ => rfl⟩

/-- The end-to-end node: clock never set, local time 07:29:54 Monday
(2699 ten-second units plus deciseconds), default schedule. -/
def c3_node : Node :=
  { c2_node with
    time_has_been_set := false
    current_time := 2699
    schedule := default_schedule }

/-- A TIME message carrying 07:30:05 (2700 ten-second units and 5
deciseconds, marked valid by bit 1 of the sub-command byte). -/
def c3_msg : List Nat :=
  [PROTOCOL_EBUS_BUSCTL, 0x10, 0x05, 0x01, 0x02, P_BUSCTL_TIME,
   0x02, 10, 140, 5, 0, 0, 0, 0, 0, 0]

/-- Witness for `time_msg_catchup`: the end-to-end scenario — node at
07:29:54 receives TIME 07:30:05; the clock updates, the forced window
spans the gap, the Monday 07:30 pull-up entry (timestamp 2701) is
selected and the up run is triggered. -/
theorem time_msg_catchup_witness :
    (2700 : Nat) = mget c3_msg 7 <<< 8 ||| mget c3_msg 8 ∧
    c3_node.current_time = 2699 ∧
    c3_node.current_time < 2700 ∧
    (process_ebus_busctl c3_node c3_msg).1.current_time = 2700 ∧
    (process_ebus_busctl c3_node c3_msg).1.current_clock = 5 * 10 ∧
    (process_ebus_busctl c3_node c3_msg).1.time_has_been_set = true ∧
    (schedule_tlow c3_node.schedule_last_tfound 2700 c3_node.current_time <
        2700 ∧ 2700 ≤ schedule_thigh 2700) ∧
    schedule_selected (set_current_fulltime c3_node 2700 5) 2700
      c3_node.current_time = 2701 ∧
    (2701 : Nat) % 6 = 1 ∧
    (process_ebus_busctl c3_node c3_msg).1.motor =
      trigger_action c3_node.motor .action_up := by
  have h := time_msg_catchup c3_node c3_msg 2700 5 (by decide) (by decide)
    (by decide) (by decide) (Or.inl (by decide)) (by decide) (by decide)
  refine ⟨by decide, rfl, by decide, h.2.1, h.2.2.1, h.2.2.2.1, ?_,
    by decide, by decide, ?_⟩
  · exact h.2.2.2.2.1 (by decide) (by decide) 2700 (by decide) (by decide)
  · exact (h.2.2.2.2.2 (by decide)).1 (by decide)

/-- A TIME message carrying the older timestamp 2600 (backward jump). -/
def c9_msg : List Nat :=
  [PROTOCOL_EBUS_BUSCTL, 0x10, 0x05, 0x01, 0x02, P_BUSCTL_TIME,
   0x02, 10, 40, 5, 0, 0, 0, 0, 0, 0]

/-- Witness for `time_msg_unconditional`: the backward jump to 2600 is
accepted — the clock is overwritten, `time_has_been_set` raised, and
nothing else happens. -/
theorem time_msg_unconditional_witness :
    (2600 : Nat) = mget c9_msg 7 <<< 8 ||| mget c9_msg 8 ∧
    2600 ≤ c3_node.current_time ∧
    (process_ebus_busctl c3_node c9_msg).1.current_time = 2600 ∧
    (process_ebus_busctl c3_node c9_msg).1.current_clock = 5 * 10 ∧
    (process_ebus_busctl c3_node c9_msg).1.time_has_been_set = true ∧
    process_ebus_busctl c3_node c9_msg =
      (set_current_fulltime c3_node 2600 5, []) := by
  have h := time_msg_unconditional c3_node c9_msg 2600 5 (by decide)
    (by decide) (by decide) (by decide) (Or.inl (by decide)) (by decide)
  exact ⟨by decide, by decide, h.1, h.2.1, h.2.2.1, h.2.2.2 (by decide)⟩

end Shutter
